import Mathlib

/-
Verification of the esp-pid-control PID controller engine.

The repository publishes its contract in src/include/pid_control.h (storage
constants, configuration structure, operation signatures and documented error
behaviour); the engine body itself is described by the design spec.  The
definitions below embed the engine shallowly: C floats are modelled as exact
values (rationals extended with the three non-finite classes), caller pointers
as Option values, and the caller-owned storage region as an address/size pair.
-/

/-- Model of a C float value: a finite value is carried exactly as a rational;
the non-finite classes nan and the two infinities are distinguished because the
engine validates finiteness. -/
inductive FloatV where
  | fin (q : ℚ)
  | nan
  | posInf
  | negInf
deriving DecidableEq

/-- Finiteness test on a modelled float, as used by the engine's validation. -/
def FloatV.isfinite : FloatV → Bool
  | .fin _ => true
  | _ => false

/-- Numeric value of a modelled float; non-finite values never reach arithmetic
on any validated path, and are mapped to 0. -/
def FloatV.toQ : FloatV → ℚ
  | .fin q => q
  | _ => 0

/-- Error codes returned by the engine (subset of esp_err.h used by the API). -/
inductive esp_err_t where
  | ESP_OK
  | ESP_ERR_INVALID_ARG
  | ESP_ERR_INVALID_SIZE
deriving DecidableEq

open esp_err_t

/-- PID_CONTROL_STORAGE_SIZE from pid_control.h: minimum number of bytes
required to store a controller instance. -/
def PID_CONTROL_STORAGE_SIZE : Nat := 48

/-- PID_CONTROL_STORAGE_ALIGNMENT from pid_control.h: required storage
alignment in bytes. -/
def PID_CONTROL_STORAGE_ALIGNMENT : Nat := 4

/-- Modelled from the spec: the body of pid_control_storage_size is not under
src/; the header documents it as returning the required storage size. -/
def pid_control_storage_size : Nat := PID_CONTROL_STORAGE_SIZE

/-- Modelled from the spec: the body of pid_control_storage_alignment is not
under src/; the header documents it as returning the required alignment. -/
def pid_control_storage_alignment : Nat := PID_CONTROL_STORAGE_ALIGNMENT

/-- pid_control_config from pid_control.h: gains, anti-windup gain and output
limits, each a float supplied by the caller. -/
structure pid_control_config where
  kp : FloatV
  ki : FloatV
  kd : FloatV
  kaw : FloatV
  u_min : FloatV
  u_max : FloatV
deriving DecidableEq

/-- Modelled from the spec: the controller instance placed into the caller's
storage region.  Configuration sub-state (validated, hence finite, stored as
exact rationals) and history sub-state (previous error, previous-previous
error, previous output after and before clamping). -/
@[ext] structure pid_control where
  kp : ℚ
  ki : ℚ
  kd : ℚ
  kaw : ℚ
  u_min : ℚ
  u_max : ℚ
  e1 : ℚ
  e2 : ℚ
  u_prev_clamped : ℚ
  u_prev_unclamped : ℚ
deriving DecidableEq

/-- Modelled from the spec: parameter validation — every numeric field finite
and u_min strictly less than u_max. -/
def pid_control_config_valid (c : pid_control_config) : Bool :=
  c.kp.isfinite && c.ki.isfinite && c.kd.isfinite && c.kaw.isfinite &&
  c.u_min.isfinite && c.u_max.isfinite &&
  decide (c.u_min.toQ < c.u_max.toQ)

/-- Modelled from the spec: the freshly bound instance — configuration stored,
history zeroed (identity starting condition). -/
def pid_control_init_state (c : pid_control_config) : pid_control :=
  { kp := c.kp.toQ, ki := c.ki.toQ, kd := c.kd.toQ, kaw := c.kaw.toQ,
    u_min := c.u_min.toQ, u_max := c.u_max.toQ,
    e1 := 0, e2 := 0, u_prev_clamped := 0, u_prev_unclamped := 0 }

/-- Modelled from the spec: pid_control_init (body not under src/).  Storage is
an address/size pair (none models a NULL pointer); handle_slot and config model
the remaining pointer arguments.  Validation order follows the spec: null
checks, then alignment, then size sufficiency, then configuration validation. -/
def pid_control_init (storage : Option Nat) (storage_size_arg : Nat)
    (handle_slot : Bool) (config : Option pid_control_config) :
    esp_err_t × Option pid_control :=
  match storage, config with
  | none, _ => (ESP_ERR_INVALID_ARG, none)
  | some _, none => (ESP_ERR_INVALID_ARG, none)
  | some addr, some cfg =>
    if handle_slot = false then (ESP_ERR_INVALID_ARG, none)
    else if addr % PID_CONTROL_STORAGE_ALIGNMENT ≠ 0 then (ESP_ERR_INVALID_ARG, none)
    else if storage_size_arg < PID_CONTROL_STORAGE_SIZE then (ESP_ERR_INVALID_SIZE, none)
    else if pid_control_config_valid cfg = false then (ESP_ERR_INVALID_ARG, none)
    else (ESP_OK, some (pid_control_init_state cfg))

/-- Restrict a value to the closed interval [lo, hi]. -/
def clamp (x lo hi : ℚ) : ℚ :=
  if x < lo then lo else if hi < x then hi else x

/-- Modelled from the spec: the incremental update algorithm on a live
instance with finite inputs — error, velocity-form increment, anti-windup
back-calculation, clamp, state advance.  Returns the clamped output and the
advanced state. -/
def pid_control_update_core (s : pid_control) (setpoint measurement : ℚ) :
    ℚ × pid_control :=
  let e := setpoint - measurement
  let du := s.kp * (e - s.e1) + s.ki * e + s.kd * (e - 2 * s.e1 + s.e2)
  let u_raw := s.u_prev_clamped + du + s.kaw * (s.u_prev_clamped - s.u_prev_unclamped)
  let u := clamp u_raw s.u_min s.u_max
  (u, { s with e2 := s.e1, e1 := e, u_prev_unclamped := u_raw, u_prev_clamped := u })

/-- Modelled from the spec: pid_control_update (body not under src/) with the
runtime checks enabled (CONFIG_PID_CONTROL_IGNORE_UPDATE_CHECKS off, the
default; with the flag on, invalid inputs are undefined behaviour and out of
scope).  Returns the error code, the instance after the call (none when the
handle was NULL) and the written output slot (none when nothing was written). -/
def pid_control_update (handle : Option pid_control)
    (setpoint measurement : FloatV) (u_out_slot : Bool) :
    esp_err_t × Option pid_control × Option ℚ :=
  match handle with
  | none => (ESP_ERR_INVALID_ARG, none, none)
  | some s =>
    if u_out_slot = false then (ESP_ERR_INVALID_ARG, some s, none)
    else if (setpoint.isfinite && measurement.isfinite) = false then
      (ESP_ERR_INVALID_ARG, some s, none)
    else
      let r := pid_control_update_core s setpoint.toQ measurement.toQ
      (ESP_OK, some r.2, some r.1)

/-- Modelled from the spec: zero the four history fields, configuration
untouched. -/
def pid_control_reset_core (s : pid_control) : pid_control :=
  { s with e1 := 0, e2 := 0, u_prev_clamped := 0, u_prev_unclamped := 0 }

/-- Modelled from the spec: pid_control_reset_state (body not under src/). -/
def pid_control_reset_state (handle : Option pid_control) :
    esp_err_t × Option pid_control :=
  match handle with
  | none => (ESP_ERR_INVALID_ARG, none)
  | some s => (ESP_OK, some (pid_control_reset_core s))

/-- The effective configuration currently stored in a live instance, viewed as
a configuration record (all fields finite by the data-model invariant). -/
def pid_control.config (s : pid_control) : pid_control_config :=
  { kp := .fin s.kp, ki := .fin s.ki, kd := .fin s.kd, kaw := .fin s.kaw,
    u_min := .fin s.u_min, u_max := .fin s.u_max }

/-- Modelled from the spec: pid_control_set_gains (body not under src/).  The
resulting full effective configuration is re-validated; on failure the prior
state is left unmodified. -/
def pid_control_set_gains (handle : Option pid_control) (reset_on_change : Bool)
    (kp ki kd : FloatV) : esp_err_t × Option pid_control :=
  match handle with
  | none => (ESP_ERR_INVALID_ARG, none)
  | some s =>
    let cand : pid_control_config := { s.config with kp := kp, ki := ki, kd := kd }
    if pid_control_config_valid cand = false then (ESP_ERR_INVALID_ARG, some s)
    else
      let s1 := { s with kp := kp.toQ, ki := ki.toQ, kd := kd.toQ }
      (ESP_OK, some (if reset_on_change then pid_control_reset_core s1 else s1))

/-- Modelled from the spec: pid_control_set_anti_windup (body not under src/). -/
def pid_control_set_anti_windup (handle : Option pid_control) (kaw : FloatV) :
    esp_err_t × Option pid_control :=
  match handle with
  | none => (ESP_ERR_INVALID_ARG, none)
  | some s =>
    let cand : pid_control_config := { s.config with kaw := kaw }
    if pid_control_config_valid cand = false then (ESP_ERR_INVALID_ARG, some s)
    else (ESP_OK, some { s with kaw := kaw.toQ })

/-- Modelled from the spec: pid_control_set_output_limits (body not under
src/).  The new pair is validated jointly; history is not re-clamped. -/
def pid_control_set_output_limits (handle : Option pid_control)
    (u_min u_max : FloatV) : esp_err_t × Option pid_control :=
  match handle with
  | none => (ESP_ERR_INVALID_ARG, none)
  | some s =>
    let cand : pid_control_config := { s.config with u_min := u_min, u_max := u_max }
    if pid_control_config_valid cand = false then (ESP_ERR_INVALID_ARG, some s)
    else (ESP_OK, some { s with u_min := u_min.toQ, u_max := u_max.toQ })

/-- A sequence of successful updates on a live instance: the list of outputs
and the final state. -/
def pid_control_run (s : pid_control) : List (ℚ × ℚ) → List ℚ × pid_control
  | [] => ([], s)
  | (sp, m) :: rest =>
    let r := pid_control_update_core s sp m
    let tail := pid_control_run r.2 rest
    (r.1 :: tail.1, tail.2)

/-- The configuration of the basic example (basic_example.c). -/
def example_config : pid_control_config :=
  { kp := .fin 1, ki := .fin (1/10), kd := .fin (1/100), kaw := .fin 0,
    u_min := .fin (-100), u_max := .fin 100 }

/-- Claim C10: the published storage constants are concretely 48 bytes of
minimum size and 4 bytes of alignment, and the query operations agree with the
compile-time constants. -/
theorem C10_storage_constants :
    pid_control_storage_size = PID_CONTROL_STORAGE_SIZE ∧
    pid_control_storage_alignment = PID_CONTROL_STORAGE_ALIGNMENT ∧
    PID_CONTROL_STORAGE_SIZE = 48 ∧
    PID_CONTROL_STORAGE_ALIGNMENT = 4 := by
  refine ⟨rfl, rfl, rfl, rfl⟩

/-- Claim C2: with the basic example's configuration, binding succeeds and the
first update with setpoint 50 and measurement 0 succeeds and returns
clamp(1*(50-0) + 0.1*50 + 0.01*50, -100, 100) = 55.5 (= 111/2), the pre-update
history being e1 = e2 = 0. -/
theorem C2_first_output :
    pid_control_init (some 0) 48 true (some example_config)
      = (ESP_OK, some (pid_control_init_state example_config)) ∧
    (pid_control_init_state example_config).e1 = 0 ∧
    (pid_control_init_state example_config).e2 = 0 ∧
    (pid_control_update (some (pid_control_init_state example_config))
        (.fin 50) (.fin 0) true).1 = ESP_OK ∧
    (pid_control_update (some (pid_control_init_state example_config))
        (.fin 50) (.fin 0) true).2.2
      = some (clamp (1 * (50 - 0) + 1/10 * 50 + 1/100 * 50) (-100) 100) ∧
    clamp (1 * (50 - 0) + 1/10 * 50 + 1/100 * 50) (-100) 100 = 111/2 := by
  refine ⟨?_, rfl, rfl, ?_, ?_, ?_⟩
  · simp [pid_control_init, pid_control_config_valid, FloatV.isfinite, FloatV.toQ,
      example_config, PID_CONTROL_STORAGE_SIZE, PID_CONTROL_STORAGE_ALIGNMENT]
  · rfl
  · norm_num [pid_control_update, pid_control_update_core, pid_control_init_state,
      example_config, FloatV.toQ, FloatV.isfinite, clamp]
  · norm_num [clamp]

/-- Claim C1: on a live instance with finite inputs, a successful update
computes e = setpoint - measurement, the velocity-form increment, the
anti-windup-corrected raw output, returns the clamped output in the output
slot, and advances the history exactly as specified. -/
theorem C1_update_formula (s : pid_control) (sp m : ℚ) :
    pid_control_update (some s) (.fin sp) (.fin m) true
      = (ESP_OK,
         some { s with
           e2 := s.e1,
           e1 := sp - m,
           u_prev_unclamped := s.u_prev_clamped
             + (s.kp * ((sp - m) - s.e1) + s.ki * (sp - m)
                + s.kd * ((sp - m) - 2 * s.e1 + s.e2))
             + s.kaw * (s.u_prev_clamped - s.u_prev_unclamped),
           u_prev_clamped := clamp
             (s.u_prev_clamped
               + (s.kp * ((sp - m) - s.e1) + s.ki * (sp - m)
                  + s.kd * ((sp - m) - 2 * s.e1 + s.e2))
               + s.kaw * (s.u_prev_clamped - s.u_prev_unclamped))
             s.u_min s.u_max },
         some (clamp
             (s.u_prev_clamped
               + (s.kp * ((sp - m) - s.e1) + s.ki * (sp - m)
                  + s.kd * ((sp - m) - 2 * s.e1 + s.e2))
               + s.kaw * (s.u_prev_clamped - s.u_prev_unclamped))
             s.u_min s.u_max)) := rfl

/-- Claim C8: reset-state on a live instance sets exactly the four history
fields to zero and leaves every configuration field unchanged. -/
theorem C8_reset_frame (s : pid_control) :
    pid_control_reset_state (some s)
      = (ESP_OK, some { kp := s.kp, ki := s.ki, kd := s.kd, kaw := s.kaw,
                        u_min := s.u_min, u_max := s.u_max,
                        e1 := 0, e2 := 0,
                        u_prev_clamped := 0, u_prev_unclamped := 0 }) := rfl

/-- A clamped value lies in the clamping interval whenever it is nonempty. -/
theorem clamp_bounds (x lo hi : ℚ) (h : lo ≤ hi) :
    lo ≤ clamp x lo hi ∧ clamp x lo hi ≤ hi := by
  unfold clamp
  split
  · exact ⟨le_refl lo, h⟩
  · split
    · exact ⟨h, le_refl hi⟩
    · rename_i h1 h2
      exact ⟨le_of_not_lt h1, le_of_not_lt h2⟩

/-- An update step never changes the configuration sub-state. -/
theorem pid_control_update_core_config (s : pid_control) (sp m : ℚ) :
    (pid_control_update_core s sp m).2.kp = s.kp ∧
    (pid_control_update_core s sp m).2.ki = s.ki ∧
    (pid_control_update_core s sp m).2.kd = s.kd ∧
    (pid_control_update_core s sp m).2.kaw = s.kaw ∧
    (pid_control_update_core s sp m).2.u_min = s.u_min ∧
    (pid_control_update_core s sp m).2.u_max = s.u_max :=
  ⟨rfl, rfl, rfl, rfl, rfl, rfl⟩

/-- A run of updates never changes the configuration sub-state. -/
theorem pid_control_run_config (inputs : List (ℚ × ℚ)) (s : pid_control) :
    (pid_control_run s inputs).2.kp = s.kp ∧
    (pid_control_run s inputs).2.ki = s.ki ∧
    (pid_control_run s inputs).2.kd = s.kd ∧
    (pid_control_run s inputs).2.kaw = s.kaw ∧
    (pid_control_run s inputs).2.u_min = s.u_min ∧
    (pid_control_run s inputs).2.u_max = s.u_max := by
  induction inputs generalizing s with
  | nil => exact ⟨rfl, rfl, rfl, rfl, rfl, rfl⟩
  | cons p rest ih =>
    have := ih (pid_control_update_core s p.1 p.2).2
    simpa [pid_control_run, pid_control_update_core] using this

/-- Resetting after a run of updates gives the same instance as resetting the
starting instance: a run only touches the history that reset zeroes. -/
theorem pid_control_run_reset (inputs : List (ℚ × ℚ)) (s : pid_control) :
    pid_control_reset_core (pid_control_run s inputs).2
      = pid_control_reset_core s := by
  induction inputs generalizing s with
  | nil => rfl
  | cons p rest ih =>
    obtain ⟨a, b⟩ := p
    exact ih (pid_control_update_core s a b).2

/-- Claim C3: for every live instance whose limits satisfy the validation
invariant u_min < u_max, every output of every sequence of updates lies within
[u_min, u_max], regardless of the gains. -/
theorem C3_clamp_invariant (s : pid_control) (inputs : List (ℚ × ℚ))
    (h : s.u_min < s.u_max) :
    ∀ u ∈ (pid_control_run s inputs).1, s.u_min ≤ u ∧ u ≤ s.u_max := by
  induction inputs generalizing s with
  | nil =>
    intro u hu
    simp [pid_control_run] at hu
  | cons p rest ih =>
    intro u hu
    simp only [pid_control_run, List.mem_cons] at hu
    rcases hu with h1 | h2
    · subst h1
      exact clamp_bounds _ _ _ (le_of_lt h)
    · have hcfg := pid_control_update_core_config s p.1 p.2
      have hmin : (pid_control_update_core s p.1 p.2).2.u_min = s.u_min := hcfg.2.2.2.2.1
      have hmax : (pid_control_update_core s p.1 p.2).2.u_max = s.u_max := hcfg.2.2.2.2.2
      have hb : (pid_control_update_core s p.1 p.2).2.u_min
          < (pid_control_update_core s p.1 p.2).2.u_max := by
        rw [hmin, hmax]; exact h
      have := ih (pid_control_update_core s p.1 p.2).2 hb u h2
      rw [hmin, hmax] at this
      exact this

/-- Witness for C3 at the basic example configuration and a single input. -/
theorem C3_clamp_invariant_witness :
    (pid_control_init_state example_config).u_min
      < (pid_control_init_state example_config).u_max ∧
    ((pid_control_init_state example_config).u_min ≤ 111/2 ∧
      (111/2 : ℚ) ≤ (pid_control_init_state example_config).u_max) := by
  have hlt : (pid_control_init_state example_config).u_min
      < (pid_control_init_state example_config).u_max := by
    norm_num [pid_control_init_state, example_config, FloatV.toQ]
  have hmem : (111/2 : ℚ) ∈
      (pid_control_run (pid_control_init_state example_config) [(50, 0)]).1 := by
    norm_num [pid_control_run, pid_control_update_core, pid_control_init_state,
      example_config, FloatV.toQ, clamp]
  exact ⟨hlt, C3_clamp_invariant (pid_control_init_state example_config)
    [(50, 0)] hlt (111/2) hmem⟩

/-- Claim C7: with runtime validation enabled (the default build), update
returns invalid-argument and writes no output whenever the handle or the
output slot is null or the setpoint or measurement is non-finite, and returns
success for every live handle and output slot with finite inputs. -/
theorem C7_update_validation (s : pid_control) (sp m : FloatV) :
    (∀ slot, pid_control_update none sp m slot = (ESP_ERR_INVALID_ARG, none, none)) ∧
    pid_control_update (some s) sp m false = (ESP_ERR_INVALID_ARG, some s, none) ∧
    (sp.isfinite = false ∨ m.isfinite = false →
      pid_control_update (some s) sp m true = (ESP_ERR_INVALID_ARG, some s, none)) ∧
    (sp.isfinite = true → m.isfinite = true →
      (pid_control_update (some s) sp m true).1 = ESP_OK ∧
      (pid_control_update (some s) sp m true).2.2
        = some (pid_control_update_core s sp.toQ m.toQ).1) := by
  refine ⟨fun slot => rfl, rfl, ?_, ?_⟩
  · intro hnf
    rcases hnf with h | h <;> simp [pid_control_update, h]
  · intro h1 h2
    simp [pid_control_update, h1, h2]

/-- Witness for C7 at concrete inputs: a NaN setpoint is rejected without
mutation, and finite inputs succeed. -/
theorem C7_update_validation_witness :
    pid_control_update (some (pid_control_init_state example_config))
        FloatV.nan (.fin 0) true
      = (ESP_ERR_INVALID_ARG, some (pid_control_init_state example_config), none) ∧
    (pid_control_update (some (pid_control_init_state example_config))
        (.fin 50) (.fin 0) true).1 = ESP_OK := by
  constructor
  · exact (C7_update_validation (pid_control_init_state example_config)
      FloatV.nan (.fin 0)).2.2.1 (Or.inl rfl)
  · exact ((C7_update_validation (pid_control_init_state example_config)
      (.fin 50) (.fin 0)).2.2.2 rfl rfl).1

/-- Claim C4: on a live instance, every operation that returns an error leaves
the instance exactly as it was (no partial mutation); in particular setting
output limits u_min = 10, u_max = 5 always fails with invalid-argument and
leaves the prior limits intact. -/
theorem C4_error_preserves_state (s : pid_control) :
    (∀ sp m slot, (pid_control_update (some s) sp m slot).1 ≠ ESP_OK →
      (pid_control_update (some s) sp m slot).2.1 = some s) ∧
    ((pid_control_reset_state (some s)).1 ≠ ESP_OK →
      (pid_control_reset_state (some s)).2 = some s) ∧
    (∀ roc kp ki kd, (pid_control_set_gains (some s) roc kp ki kd).1 ≠ ESP_OK →
      (pid_control_set_gains (some s) roc kp ki kd).2 = some s) ∧
    (∀ kaw, (pid_control_set_anti_windup (some s) kaw).1 ≠ ESP_OK →
      (pid_control_set_anti_windup (some s) kaw).2 = some s) ∧
    (∀ lo hi, (pid_control_set_output_limits (some s) lo hi).1 ≠ ESP_OK →
      (pid_control_set_output_limits (some s) lo hi).2 = some s) ∧
    pid_control_set_output_limits (some s) (.fin 10) (.fin 5)
      = (ESP_ERR_INVALID_ARG, some s) := by
  refine ⟨?_, ?_, ?_, ?_, ?_, ?_⟩
  · intro sp m slot h
    by_cases h1 : slot = false
    · simp [pid_control_update, h1]
    · by_cases h2 : (sp.isfinite && m.isfinite) = false
      · simp [pid_control_update, h1, h2]
      · exact absurd (by simp [pid_control_update, h1, h2]) h
  · intro h
    exact absurd rfl h
  · intro roc kp ki kd h
    by_cases hv : pid_control_config_valid
        { s.config with kp := kp, ki := ki, kd := kd } = false
    · simp [pid_control_set_gains, hv]
    · exact absurd (by simp [pid_control_set_gains, hv]) h
  · intro kaw h
    by_cases hv : pid_control_config_valid { s.config with kaw := kaw } = false
    · simp [pid_control_set_anti_windup, hv]
    · exact absurd (by simp [pid_control_set_anti_windup, hv]) h
  · intro lo hi h
    by_cases hv : pid_control_config_valid
        { s.config with u_min := lo, u_max := hi } = false
    · simp [pid_control_set_output_limits, hv]
    · exact absurd (by simp [pid_control_set_output_limits, hv]) h
  · have hv : pid_control_config_valid
        { s.config with u_min := FloatV.fin 10, u_max := FloatV.fin 5 } = false := by
      norm_num [pid_control_config_valid, pid_control.config, FloatV.isfinite, FloatV.toQ]
    simp [pid_control_set_output_limits, hv]

/-- Witness for C4: a NaN setpoint makes update fail and leaves the freshly
bound example instance unchanged. -/
theorem C4_error_preserves_state_witness :
    (pid_control_update (some (pid_control_init_state example_config))
        FloatV.nan (.fin 0) true).2.1 = some (pid_control_init_state example_config) :=
  (C4_error_preserves_state (pid_control_init_state example_config)).1
    FloatV.nan (.fin 0) true (by simp [pid_control_update, FloatV.isfinite])

/-- Claim C5: a freshly bound controller and a controller bound with the same
configuration, run through any update sequence and then reset, produce
identical output sequences on identical subsequent inputs. -/
theorem C5_reset_equivalence (cfg : pid_control_config)
    (h : pid_control_config_valid cfg = true) (seq1 seq2 : List (ℚ × ℚ)) :
    (pid_control_run (pid_control_reset_core
        (pid_control_run (pid_control_init_state cfg) seq1).2) seq2).1
      = (pid_control_run (pid_control_init_state cfg) seq2).1 := by
  have hreset : pid_control_reset_core
      (pid_control_run (pid_control_init_state cfg) seq1).2
        = pid_control_init_state cfg := by
    rw [pid_control_run_reset]
    rfl
  rw [hreset]

/-- Witness for C5 at the basic example configuration with concrete runs. -/
theorem C5_reset_equivalence_witness :
    pid_control_config_valid example_config = true ∧
    (pid_control_run (pid_control_reset_core
        (pid_control_run (pid_control_init_state example_config) [(50, 0)]).2)
        [(1, 2)]).1
      = (pid_control_run (pid_control_init_state example_config) [(1, 2)]).1 := by
  have hv : pid_control_config_valid example_config = true := by
    norm_num [pid_control_config_valid, example_config, FloatV.isfinite, FloatV.toQ]
  exact ⟨hv, C5_reset_equivalence example_config hv [(50, 0)] [(1, 2)]⟩

/-- Counterexample for C6: a region that is both misaligned (address 1) and
too small (size 0) fails with invalid-argument, not with insufficient-size,
because the alignment check precedes the size check — so the claim's
"insufficient-size for any region smaller than the minimum" does not hold of
every such region. -/
theorem C6_counterexample :
    pid_control_init (some 1) 0 true (some example_config)
      = (ESP_ERR_INVALID_ARG, none) ∧
    (0 : Nat) < PID_CONTROL_STORAGE_SIZE ∧
    ESP_ERR_INVALID_ARG ≠ ESP_ERR_INVALID_SIZE := by
  refine ⟨?_, by decide, by decide⟩
  simp [pid_control_init, PID_CONTROL_STORAGE_ALIGNMENT]

/-- Claim C6 as amended: null pointers, a misaligned region, and an invalid
configuration fail with invalid-argument; an aligned region with valid
pointers that is smaller than the published minimum fails with
insufficient-size (alignment is checked before size, so a misaligned too-small
region reports invalid-argument); the two error codes are distinct and the
region is never truncated or rounded. -/
theorem C6_init_errors (addr storage_size_arg : Nat) (cfg : pid_control_config) :
    (addr % PID_CONTROL_STORAGE_ALIGNMENT = 0 →
      storage_size_arg < PID_CONTROL_STORAGE_SIZE →
      pid_control_init (some addr) storage_size_arg true (some cfg)
        = (ESP_ERR_INVALID_SIZE, none)) ∧
    (addr % PID_CONTROL_STORAGE_ALIGNMENT ≠ 0 →
      pid_control_init (some addr) storage_size_arg true (some cfg)
        = (ESP_ERR_INVALID_ARG, none)) ∧
    pid_control_init none storage_size_arg true (some cfg)
      = (ESP_ERR_INVALID_ARG, none) ∧
    pid_control_init (some addr) storage_size_arg false (some cfg)
      = (ESP_ERR_INVALID_ARG, none) ∧
    pid_control_init (some addr) storage_size_arg true none
      = (ESP_ERR_INVALID_ARG, none) ∧
    (addr % PID_CONTROL_STORAGE_ALIGNMENT = 0 →
      PID_CONTROL_STORAGE_SIZE ≤ storage_size_arg →
      pid_control_config_valid cfg = false →
      pid_control_init (some addr) storage_size_arg true (some cfg)
        = (ESP_ERR_INVALID_ARG, none)) ∧
    ESP_ERR_INVALID_SIZE ≠ ESP_ERR_INVALID_ARG := by
  refine ⟨?_, ?_, rfl, rfl, rfl, ?_, by decide⟩
  · intro h1 h2
    simp [pid_control_init, h1, h2]
  · intro h1
    simp [pid_control_init, h1]
  · intro h1 h2 h3
    simp [pid_control_init, h1, not_lt.2 h2, h3]

/-- Witness for C6's amendment: size 47 on an aligned region reports
insufficient-size; a misaligned region of sufficient size reports
invalid-argument. -/
theorem C6_init_errors_witness :
    pid_control_init (some 0) 47 true (some example_config)
      = (ESP_ERR_INVALID_SIZE, none) ∧
    pid_control_init (some 1) 48 true (some example_config)
      = (ESP_ERR_INVALID_ARG, none) := by
  constructor
  · exact (C6_init_errors 0 47 example_config).1 (by decide) (by decide)
  · exact (C6_init_errors 1 48 example_config).2.1 (by decide)

/-- A validly bound configuration on which C9 fails: zero gains, nonzero
anti-windup gain, and limits that exclude zero. -/
def osc_config : pid_control_config :=
  { kp := .fin 0, ki := .fin 0, kd := .fin 0, kaw := .fin 3,
    u_min := .fin 1, u_max := .fin 2 }

/-- Counterexample for C9: with the valid configuration osc_config (ki = 0,
kaw = 3, limits [1, 2]) and setpoint equal to measurement at every step, the
output sequence from a freshly bound controller is 1, 2, 1 — it changes even
though the ki term is identically zero (the change comes from the anti-windup
term) and it does not converge to a steady value. -/
theorem C9_counterexample :
    pid_control_config_valid osc_config = true ∧
    osc_config.ki = FloatV.fin 0 ∧
    (pid_control_run (pid_control_init_state osc_config)
        [(0, 0), (0, 0), (0, 0)]).1 = [1, 2, 1] ∧
    (1 : ℚ) ≠ 2 := by
  refine ⟨?_, rfl, ?_, by norm_num⟩
  · norm_num [pid_control_config_valid, osc_config, FloatV.isfinite, FloatV.toQ]
  · norm_num [pid_control_run, pid_control_update_core, pid_control_init_state,
      osc_config, FloatV.toQ, clamp]

/-- Claim C9 as amended: for every configuration whose limits admit the zero
starting output (u_min ≤ 0 ≤ u_max), repeated updates with setpoint equal to
measurement from a freshly bound controller keep the output constant at the
previous output's steady value 0 and leave the state unchanged — every
proportional, integral and derivative contribution vanishes because the error
is identically zero. -/
theorem C9_zero_error_steady (cfg : pid_control_config) (sp : ℚ) (n : Nat)
    (hlo : cfg.u_min.toQ ≤ 0) (hhi : 0 ≤ cfg.u_max.toQ) :
    (pid_control_run (pid_control_init_state cfg) (List.replicate n (sp, sp))).1
        = List.replicate n 0 ∧
    (pid_control_run (pid_control_init_state cfg) (List.replicate n (sp, sp))).2
        = pid_control_init_state cfg := by
  have hc : clamp 0 cfg.u_min.toQ cfg.u_max.toQ = 0 := by
    unfold clamp
    rw [if_neg (not_lt.2 hlo), if_neg (not_lt.2 hhi)]
  have hstep : pid_control_update_core (pid_control_init_state cfg) sp sp
      = (0, pid_control_init_state cfg) := by
    simp [pid_control_update_core, pid_control_init_state, sub_self, hc]
  induction n with
  | zero => exact ⟨rfl, rfl⟩
  | succ k ih =>
    simp [List.replicate, pid_control_run, hstep, ih.1, ih.2]

/-- Witness for the amended C9 at the basic example configuration, setpoint 7
and two steps. -/
theorem C9_zero_error_steady_witness :
    example_config.u_min.toQ ≤ 0 ∧ (0 : ℚ) ≤ example_config.u_max.toQ ∧
    (pid_control_run (pid_control_init_state example_config)
        (List.replicate 2 ((7 : ℚ), (7 : ℚ)))).1 = List.replicate 2 0 := by
  have h1 : example_config.u_min.toQ ≤ 0 := by
    norm_num [example_config, FloatV.toQ]
  have h2 : (0 : ℚ) ≤ example_config.u_max.toQ := by
    norm_num [example_config, FloatV.toQ]
  exact ⟨h1, h2, (C9_zero_error_steady example_config 7 2 h1 h2).1⟩
